import Mathlib

/-!
# Formal model of the playto-community-feed karma/like subsystem

Shallow embedding of the like/karma core of the repository:

* `backend/core/models/like.py`   — the `Like` model and its database-level
  `UniqueConstraint(fields=['user', 'content_type', 'object_id'])`;
* `backend/core/services/like_service.py` — `toggle_like` (insert-first,
  catch `IntegrityError`, delete + decrement, all inside
  `@transaction.atomic`);
* `backend/core/models/user.py`   — `User.total_karma`, `User.karma_last_24h`;
* `backend/core/services/leaderboard_service.py` — `get_top_users_24h`.

The database is modelled as a `Store`: the list of live `Like` rows, the
denormalized `like_count` fields of posts and comments (one `Int` counter per
(kind, id)), and the `User` table as a list of user ids.  Timestamps are
integers (seconds); `timezone.now()` becomes an explicit `now` parameter.
-/

namespace Playto

/-- `content_type` of a like target: `Post` or `Comment`
(the two models registered with Django's generic relation). -/
inductive Kind where
  | post
  | comment
deriving DecidableEq, Repr

/-- One row of the `Like` table (`backend/core/models/like.py`):
`user`, `content_type` + `object_id` (the generic target), the denormalized
`content_author`, the stored `karma_value`, and `created_at`. -/
structure LikeEvent where
  user : Nat
  kind : Kind
  objectId : Nat
  contentAuthor : Nat
  karmaValue : Int
  createdAt : Int
deriving DecidableEq, Repr

/-- A like target as `toggle_like` receives it: a `Post` or `Comment` object,
reduced to its kind, primary key and `author` id. -/
structure Target where
  kind : Kind
  id : Nat
  author : Nat
deriving DecidableEq, Repr

/-- Database state: the live `Like` rows, the denormalized `like_count`
column of each post/comment (indexed by kind and id), and the `User` table. -/
structure Store where
  likes : List LikeEvent
  likeCount : Kind → Nat → Int
  users : List Nat

/-- Does row `e` match the unique key `(user, content_type, object_id)`?
This is the column tuple of `unique_like_per_user_per_content`. -/
def matchesKey (u : Nat) (k : Kind) (i : Nat) (e : LikeEvent) : Bool :=
  decide (e.user = u) && decide (e.kind = k) && decide (e.objectId = i)

/-- Does row `e` reference the item `(k, i)` (any liking user)? -/
def matchesItem (k : Kind) (i : Nat) (e : LikeEvent) : Bool :=
  decide (e.kind = k) && decide (e.objectId = i)

/-- Existence check: is there a live like by user `u` on item `(k, i)`? -/
def hasLike (s : Store) (u : Nat) (k : Kind) (i : Nat) : Bool :=
  s.likes.any (matchesKey u k i)

/-- `Like.objects.create(...)` against the table carrying the
`UniqueConstraint(fields=['user', 'content_type', 'object_id'])` of
`Like.Meta`: the storage layer itself rejects the insert (raising
`IntegrityError`) whenever a row with the same key tuple is already live,
independently of any application-level check. -/
def insertLike (s : Store) (e : LikeEvent) : Except Unit Store :=
  if hasLike s e.user e.kind e.objectId then
    Except.error ()
  else
    Except.ok { s with likes := e :: s.likes }

/-- `Like.objects.filter(user=.., content_type=.., object_id=..).delete()`:
removes every live row matching the key tuple. -/
def deleteLikes (s : Store) (u : Nat) (k : Kind) (i : Nat) : Store :=
  { s with likes := s.likes.filter (fun e => !(matchesKey u k i e)) }

/-- `content_object.save(update_fields=['like_count'])`: writes the
`like_count` column of the single item `(k, i)`. -/
def setCount (s : Store) (k : Kind) (i : Nat) (v : Int) : Store :=
  { s with likeCount := fun k' i' => if k' = k ∧ i' = i then v else s.likeCount k' i' }

/-- `karma_value = 5 if isinstance(content_object, Post) else 1`. -/
def karmaValueFor (k : Kind) : Int :=
  if k = Kind.post then 5 else 1

/-- `toggle_like(user, content_object)` from
`backend/core/services/like_service.py`, with the sequential (single-request)
semantics of its `@transaction.atomic` body:

1. try `Like.objects.create(user, content_type, object_id, content_author,
   karma_value)`;
2. on success, `content_object.like_count += 1`, save, return
   `(True, karma_value)`;
3. on `IntegrityError` (unique-constraint violation), delete the existing
   like(s) for the key tuple, `content_object.like_count -= 1`, save, return
   `(False, -karma_value)`.

`now` stands for the `auto_now_add` timestamp of the created row.
Returns the `(is_liked, karma_change)` pair together with the new store. -/
def toggle_like (s : Store) (user : Nat) (tgt : Target) (now : Int) :
    (Bool × Int) × Store :=
  let karma_value := karmaValueFor tgt.kind
  match insertLike s ⟨user, tgt.kind, tgt.id, tgt.author, karma_value, now⟩ with
  | Except.ok s1 =>
      let s2 := setCount s1 tgt.kind tgt.id (s1.likeCount tgt.kind tgt.id + 1)
      ((true, karma_value), s2)
  | Except.error _ =>
      let s1 := deleteLikes s user tgt.kind tgt.id
      let s2 := setCount s1 tgt.kind tgt.id (s1.likeCount tgt.kind tgt.id - 1)
      ((false, -karma_value), s2)

/-- A sequence of toggle operations `(user, target, now)` applied in order. -/
def applyToggles (s : Store) (ops : List (Nat × Target × Int)) : Store :=
  ops.foldl (fun st op => (toggle_like st op.1 op.2.1 op.2.2).2) s

/-- `User.total_karma` (`backend/core/models/user.py`):
`Like.objects.filter(content_author=self).aggregate(Sum('karma_value')) or 0`.
The SQL `SUM` over zero rows is `NULL`, mapped to `0` by `or 0`; over a list
this is simply the sum of the (possibly empty) filtered list. -/
def total_karma (s : Store) (u : Nat) : Int :=
  ((s.likes.filter (fun e => decide (e.contentAuthor = u))).map
    (fun e => e.karmaValue)).sum

/-- `timezone.now() - timedelta(hours=24)`, in seconds. -/
def windowStart (now : Int) : Int :=
  now - 24 * 60 * 60

/-- `User.karma_last_24h` (`backend/core/models/user.py`):
the same aggregate restricted by `created_at__gte=time_threshold` where
`time_threshold = timezone.now() - timedelta(hours=24)` (inclusive `>=`). -/
def karma_last_24h (s : Store) (now : Int) (u : Nat) : Int :=
  ((s.likes.filter (fun e =>
      decide (e.contentAuthor = u) && decide (windowStart now ≤ e.createdAt))).map
    (fun e => e.karmaValue)).sum

/-- The filter in `get_top_users_24h`:
`User.objects.filter(likes_received__created_at__gte=time_threshold)` keeps a
user iff some live like with `content_author` equal to that user was created
in the window. -/
def hasRecentLike (s : Store) (now : Int) (u : Nat) : Bool :=
  s.likes.any (fun e =>
    decide (e.contentAuthor = u) && decide (windowStart now ≤ e.createdAt))

/-- The grouped rows of the `get_top_users_24h` query, before `ORDER BY` and
`LIMIT`: every user of the `User` table having at least one qualifying like,
annotated with `karma_24h = Sum('likes_received__karma_value')` over the rows
selected by the same (filtered) join — which is exactly `karma_last_24h`. -/
def groupedRows (s : Store) (now : Int) : List (Nat × Int) :=
  (s.users.filter (hasRecentLike s now)).map
    (fun u => (u, karma_last_24h s now u))

/-- Descending order on the annotated karma (`order_by('-karma_24h')`). -/
def KarmaSortedDesc (l : List (Nat × Int)) : Prop :=
  List.Sorted (fun a b : Nat × Int => b.2 ≤ a.2) l

/-- Relational semantics of `get_top_users_24h(limit)`
(`backend/core/services/leaderboard_service.py`): the query orders the
grouped rows by `-karma_24h` alone — SQL fixes no order among rows with equal
karma — and truncates to `limit`.  A list `res` is a possible result iff it
is the `limit`-prefix of some descending-by-karma arrangement of the grouped
rows. -/
def IsTopUsersResult (s : Store) (now : Int) (lim : Nat)
    (res : List (Nat × Int)) : Prop :=
  ∃ full : List (Nat × Int),
    full.Perm (groupedRows s now) ∧ KarmaSortedDesc full ∧ res = full.take lim

/-! ## Transactional (fallible) model of the toggle

`toggle_like` runs under `@transaction.atomic`.  To state atomicity we inject
backend failures (`StorageUnavailable`) at each primitive write via an
oracle; the decorator's semantics is that a body terminating with an
uncaught error commits nothing, so the caller observes the pre-call store. -/

/-- A transactional backend failure (anything other than the absorbed
unique-constraint `IntegrityError`). -/
inductive StorageErr where
  | unavailable
deriving DecidableEq, Repr

/-- Failure injection: which of the four primitive writes of the toggle body
fails with `StorageUnavailable`. -/
structure Oracle where
  createFails : Bool
  likedSaveFails : Bool
  deleteFails : Bool
  unlikeSaveFails : Bool
deriving DecidableEq, Repr

/-- The body of `toggle_like` with injected storage failures.  On error it
exposes the uncommitted intermediate store, so that the rollback performed by
`transaction.atomic` is a real statement and not a tautology. -/
def toggle_like_body (o : Oracle) (s : Store) (user : Nat) (tgt : Target)
    (now : Int) : Except (StorageErr × Store) ((Bool × Int) × Store) :=
  let karma_value := karmaValueFor tgt.kind
  if o.createFails then
    Except.error (StorageErr.unavailable, s)
  else
    match insertLike s ⟨user, tgt.kind, tgt.id, tgt.author, karma_value, now⟩ with
    | Except.ok s1 =>
        if o.likedSaveFails then
          Except.error (StorageErr.unavailable, s1)
        else
          Except.ok ((true, karma_value),
            setCount s1 tgt.kind tgt.id (s1.likeCount tgt.kind tgt.id + 1))
    | Except.error _ =>
        if o.deleteFails then
          Except.error (StorageErr.unavailable, s)
        else
          let s1 := deleteLikes s user tgt.kind tgt.id
          if o.unlikeSaveFails then
            Except.error (StorageErr.unavailable, s1)
          else
            Except.ok ((false, -karma_value),
              setCount s1 tgt.kind tgt.id (s1.likeCount tgt.kind tgt.id - 1))

/-- `@transaction.atomic` around the body: a successful body commits its
final store; a body ending in an error commits nothing — the transaction is
rolled back and the visible store is the pre-call one.  Returns the outcome
together with the store visible after the call. -/
def toggle_like_atomic (o : Oracle) (s : Store) (user : Nat) (tgt : Target)
    (now : Int) : Except StorageErr (Bool × Int) × Store :=
  match toggle_like_body o s user tgt now with
  | Except.ok (r, s') => (Except.ok r, s')
  | Except.error (e, _) => (Except.error e, s)

/-! ## Invariants -/

/-- The storage-layer uniqueness invariant of `Like.Meta`: at most one live
row per `(user, content_type, object_id)` key. -/
def AtMostOneLike (s : Store) : Prop :=
  ∀ u k i, (s.likes.filter (matchesKey u k i)).length ≤ 1

/-- Number of live likes referencing item `(k, i)` (any user). -/
def liveCount (s : Store) (k : Kind) (i : Nat) : Nat :=
  (s.likes.filter (matchesItem k i)).length

/-- The counter invariant: every item's denormalized `like_count` equals its
number of live like rows. -/
def CountsConsistent (s : Store) : Prop :=
  ∀ k i, s.likeCount k i = (liveCount s k i : Int)

/-! ## Concrete stores used to exercise the theorems -/

/-- All counters zero. -/
def zeroCounts : Kind → Nat → Int := fun _ _ => 0

/-- Fresh database: no likes, users 1 and 2. -/
def store0 : Store := ⟨[], zeroCounts, [1, 2]⟩

/-- A single live like: user 10 liked post 1 (authored by user 2) at t = 0. -/
def likeOnPost1 : LikeEvent := ⟨10, Kind.post, 1, 2, 5, 0⟩

/-- Database holding exactly `likeOnPost1`, with a consistent counter. -/
def store1 : Store :=
  ⟨[likeOnPost1], fun k i => if k = Kind.post ∧ i = 1 then 1 else 0, [1, 2]⟩

/-- Two users tied on 24h karma: each authored a post that received one like
at t = 0. -/
def tieStore : Store :=
  ⟨[⟨10, Kind.post, 1, 1, 5, 0⟩, ⟨11, Kind.post, 2, 2, 5, 0⟩],
   fun _ _ => 1, [1, 2]⟩

/-! ## Helper lemmas -/

theorem matchesKey_eq_true {u : Nat} {k : Kind} {i : Nat} {e : LikeEvent} :
    matchesKey u k i e = true ↔ e.user = u ∧ e.kind = k ∧ e.objectId = i := by
  simp [matchesKey, and_assoc]

theorem hasLike_false_iff {s : Store} {u : Nat} {k : Kind} {i : Nat} :
    hasLike s u k i = false ↔ s.likes.filter (matchesKey u k i) = [] := by
  simp [hasLike, List.any_eq_false, List.filter_eq_nil_iff]

theorem length_filter_le_of_imp {α : Type} {p q : α → Bool} (l : List α)
    (hpq : ∀ a, q a = true → p a = true) :
    (l.filter q).length ≤ (l.filter p).length := by
  induction l with
  | nil => simp
  | cons a l ih =>
    by_cases hq : q a = true
    · simp [List.filter_cons, hq, hpq a hq, Nat.succ_le_succ ih]
    · simp only [Bool.not_eq_true] at hq
      by_cases hp : p a = true
      · simp [List.filter_cons, hq, hp]
        exact Nat.le_succ_of_le ih
      · simp only [Bool.not_eq_true] at hp
        simpa [List.filter_cons, hq, hp] using ih

theorem length_filter_filter_not {α : Type} {p q : α → Bool} (l : List α)
    (hpq : ∀ a, q a = true → p a = true) :
    ((l.filter fun a => !q a).filter p).length
      = (l.filter p).length - (l.filter q).length := by
  induction l with
  | nil => simp
  | cons a l ih =>
    by_cases hq : q a = true
    · simp [-List.filter_filter, List.filter_cons, hq, hpq a hq, ih, Nat.succ_sub_succ]
    · simp only [Bool.not_eq_true] at hq
      by_cases hp : p a = true
      · have hle := length_filter_le_of_imp (p := p) (q := q) l hpq
        simp [-List.filter_filter, List.filter_cons, hq, hp, ih, Nat.succ_sub hle]
      · simp only [Bool.not_eq_true] at hp
        simp [-List.filter_filter, List.filter_cons, hq, hp, ih]

theorem filter_filter_not_of_excl {α : Type} {p q : α → Bool} (l : List α)
    (hpq : ∀ a, q a = true → p a = false) :
    (l.filter fun a => !q a).filter p = l.filter p := by
  induction l with
  | nil => rfl
  | cons a l ih =>
    by_cases hq : q a = true
    · simp [-List.filter_filter, List.filter_cons, hq, hpq a hq, ih]
    · simp only [Bool.not_eq_true] at hq
      simp [-List.filter_filter, List.filter_cons, hq, ih]

theorem keyCount_eq_one {s : Store} {u : Nat} {k : Kind} {i : Nat}
    (ha : AtMostOneLike s) (h : hasLike s u k i = true) :
    (s.likes.filter (matchesKey u k i)).length = 1 := by
  have hpos : 0 < (s.likes.filter (matchesKey u k i)).length := by
    rcases List.any_eq_true.mp h with ⟨e, he, hme⟩
    exact List.length_pos.mpr (List.ne_nil_of_mem (List.mem_filter.mpr ⟨he, hme⟩))
  exact Nat.le_antisymm (ha u k i) hpos

theorem matchesItem_eq_true {k : Kind} {i : Nat} {e : LikeEvent} :
    matchesItem k i e = true ↔ e.kind = k ∧ e.objectId = i := by
  simp [matchesItem]

theorem matchesKey_imp_matchesItem {u : Nat} {k : Kind} {i : Nat} (e : LikeEvent)
    (h : matchesKey u k i e = true) : matchesItem k i e = true := by
  rcases matchesKey_eq_true.mp h with ⟨-, h2, h3⟩
  exact matchesItem_eq_true.mpr ⟨h2, h3⟩

theorem setCount_likes (s : Store) (k : Kind) (i : Nat) (v : Int) :
    (setCount s k i v).likes = s.likes := rfl

theorem deleteLikes_likes (s : Store) (u : Nat) (k : Kind) (i : Nat) :
    (deleteLikes s u k i).likes = s.likes.filter (fun e => !(matchesKey u k i e)) := rfl

theorem deleteLikes_likeCount (s : Store) (u : Nat) (k : Kind) (i : Nat) :
    (deleteLikes s u k i).likeCount = s.likeCount := rfl

theorem setCount_same (s : Store) (k : Kind) (i : Nat) (v : Int) :
    (setCount s k i v).likeCount k i = v := by
  simp [setCount]

theorem setCount_other (s : Store) (k : Kind) (i : Nat) (v : Int)
    (k' : Kind) (i' : Nat) (h : ¬(k' = k ∧ i' = i)) :
    (setCount s k i v).likeCount k' i' = s.likeCount k' i' := by
  simp [setCount, h]

theorem toggle_like_of_not_liked (s : Store) (u : Nat) (tgt : Target) (now : Int)
    (h : hasLike s u tgt.kind tgt.id = false) :
    toggle_like s u tgt now =
      ((true, karmaValueFor tgt.kind),
       setCount
         { s with likes :=
             ⟨u, tgt.kind, tgt.id, tgt.author, karmaValueFor tgt.kind, now⟩ :: s.likes }
         tgt.kind tgt.id (s.likeCount tgt.kind tgt.id + 1)) := by
  simp [toggle_like, insertLike, h]

theorem toggle_like_of_liked (s : Store) (u : Nat) (tgt : Target) (now : Int)
    (h : hasLike s u tgt.kind tgt.id = true) :
    toggle_like s u tgt now =
      ((false, -karmaValueFor tgt.kind),
       setCount (deleteLikes s u tgt.kind tgt.id) tgt.kind tgt.id
         (s.likeCount tgt.kind tgt.id - 1)) := by
  simp [toggle_like, insertLike, h, deleteLikes_likeCount]

/-! ## Claim theorems -/

/-- C1: for any user and target, when no live like by that user on that item
exists, `toggle_like` returns `(liked=true, +v)` and increments the item's
`like_count` by exactly 1; when such a like exists it returns
`(liked=false, -v)` and decrements the counter by exactly 1, where `v = 5`
for a `Post` target and `v = 1` for a `Comment` target. -/
theorem toggle_like_adds_or_removes (s : Store) (u : Nat) (tgt : Target) (now : Int) :
    (hasLike s u tgt.kind tgt.id = false →
      (toggle_like s u tgt now).1 = (true, if tgt.kind = Kind.post then 5 else 1) ∧
      ((toggle_like s u tgt now).2).likeCount tgt.kind tgt.id
        = s.likeCount tgt.kind tgt.id + 1) ∧
    (hasLike s u tgt.kind tgt.id = true →
      (toggle_like s u tgt now).1 = (false, -(if tgt.kind = Kind.post then 5 else 1)) ∧
      ((toggle_like s u tgt now).2).likeCount tgt.kind tgt.id
        = s.likeCount tgt.kind tgt.id - 1) := by
  constructor
  · intro h
    rw [toggle_like_of_not_liked s u tgt now h]
    exact ⟨rfl, setCount_same _ _ _ _⟩
  · intro h
    rw [toggle_like_of_liked s u tgt now h]
    exact ⟨rfl, setCount_same _ _ _ _⟩

/-- Witness for C1: both branches evaluated on concrete stores. -/
theorem toggle_like_adds_or_removes_witness :
    (toggle_like store0 10 ⟨Kind.post, 1, 2⟩ 0).1 = (true, 5) ∧
    ((toggle_like store0 10 ⟨Kind.post, 1, 2⟩ 0).2).likeCount Kind.post 1
      = store0.likeCount Kind.post 1 + 1 ∧
    (toggle_like store1 10 ⟨Kind.post, 1, 2⟩ 5).1 = (false, -5) ∧
    ((toggle_like store1 10 ⟨Kind.post, 1, 2⟩ 5).2).likeCount Kind.post 1
      = store1.likeCount Kind.post 1 - 1 := by
  have h1 := (toggle_like_adds_or_removes store0 10 ⟨Kind.post, 1, 2⟩ 0).1 (by decide)
  have h2 := (toggle_like_adds_or_removes store1 10 ⟨Kind.post, 1, 2⟩ 5).2 (by decide)
  exact ⟨h1.1, h1.2, h2.1, h2.2⟩

/-- C4: when a live like by the same user on the same item already exists,
the storage layer rejects the insert (`IntegrityError`), and `toggle_like`
absorbs that conflict internally: it deletes the existing event, decrements
the counter and returns normally; in the fallible transactional model the
outcome is `Except.ok`, never a surfaced storage conflict. -/
theorem integrity_error_absorbed (s : Store) (u : Nat) (tgt : Target) (now : Int)
    (h : hasLike s u tgt.kind tgt.id = true) :
    insertLike s ⟨u, tgt.kind, tgt.id, tgt.author, karmaValueFor tgt.kind, now⟩
      = Except.error () ∧
    toggle_like s u tgt now =
      ((false, -karmaValueFor tgt.kind),
        setCount (deleteLikes s u tgt.kind tgt.id) tgt.kind tgt.id
          (s.likeCount tgt.kind tgt.id - 1)) ∧
    (toggle_like_atomic ⟨false, false, false, false⟩ s u tgt now).1
      = Except.ok (false, -karmaValueFor tgt.kind) := by
  refine ⟨by simp [insertLike, h], toggle_like_of_liked s u tgt now h, ?_⟩
  simp [toggle_like_atomic, toggle_like_body, insertLike, h]

/-- Witness for C4 on a store with one live like. -/
theorem integrity_error_absorbed_witness :
    insertLike store1 ⟨10, Kind.post, 1, 2, karmaValueFor Kind.post, 7⟩
      = Except.error () ∧
    toggle_like store1 10 ⟨Kind.post, 1, 2⟩ 7 =
      ((false, -karmaValueFor Kind.post),
        setCount (deleteLikes store1 10 Kind.post 1) Kind.post 1
          (store1.likeCount Kind.post 1 - 1)) ∧
    (toggle_like_atomic ⟨false, false, false, false⟩ store1 10 ⟨Kind.post, 1, 2⟩ 7).1
      = Except.ok (false, -karmaValueFor Kind.post) := by
  have h := integrity_error_absorbed store1 10 ⟨Kind.post, 1, 2⟩ 7 (by decide)
  exact ⟨h.1, h.2.1, h.2.2⟩

/-- C5: the toggle transaction is all-or-nothing — whenever the atomic
toggle terminates with an error (a storage failure on any of its paths),
neither the like-event mutation nor the `like_count` mutation is visible:
the committed store is exactly the pre-call store. -/
theorem toggle_like_atomic_rollback (o : Oracle) (s : Store) (u : Nat)
    (tgt : Target) (now : Int) (e : StorageErr)
    (h : (toggle_like_atomic o s u tgt now).1 = Except.error e) :
    ((toggle_like_atomic o s u tgt now).2).likes = s.likes ∧
    ((toggle_like_atomic o s u tgt now).2).likeCount = s.likeCount := by
  cases hb : toggle_like_body o s u tgt now with
  | ok r =>
    obtain ⟨r, s'⟩ := r
    simp [toggle_like_atomic, hb] at h
  | error p =>
    obtain ⟨e', s'⟩ := p
    simp [toggle_like_atomic, hb]

/-- Witness for C5: a create-time storage failure commits nothing. -/
theorem toggle_like_atomic_rollback_witness :
    ((toggle_like_atomic ⟨true, false, false, false⟩ store1 10 ⟨Kind.post, 1, 2⟩ 0).2).likes
      = store1.likes ∧
    ((toggle_like_atomic ⟨true, false, false, false⟩ store1 10 ⟨Kind.post, 1, 2⟩ 0).2).likeCount
      = store1.likeCount :=
  toggle_like_atomic_rollback ⟨true, false, false, false⟩ store1 10 ⟨Kind.post, 1, 2⟩ 0
    StorageErr.unavailable rfl

/-- C8: from a state with no live like by `u` on the target, toggling twice
in sequence returns `(true, +v)` then `(false, -v)`, and the target's
`like_count` after the second call equals its value before the first. -/
theorem toggle_like_twice (s : Store) (u : Nat) (tgt : Target) (now1 now2 : Int)
    (h : hasLike s u tgt.kind tgt.id = false) :
    (toggle_like s u tgt now1).1 = (true, karmaValueFor tgt.kind) ∧
    (toggle_like (toggle_like s u tgt now1).2 u tgt now2).1
      = (false, -karmaValueFor tgt.kind) ∧
    ((toggle_like (toggle_like s u tgt now1).2 u tgt now2).2).likeCount tgt.kind tgt.id
      = s.likeCount tgt.kind tgt.id := by
  rw [toggle_like_of_not_liked s u tgt now1 h]
  have h2 : hasLike
      (setCount
        { s with likes :=
            ⟨u, tgt.kind, tgt.id, tgt.author, karmaValueFor tgt.kind, now1⟩ :: s.likes }
        tgt.kind tgt.id (s.likeCount tgt.kind tgt.id + 1)) u tgt.kind tgt.id = true := by
    simp [hasLike, setCount, matchesKey]
  rw [toggle_like_of_liked _ _ _ _ h2]
  refine ⟨rfl, rfl, ?_⟩
  rw [setCount_same, setCount_same]
  omega

/-- Witness for C8 on the empty store. -/
theorem toggle_like_twice_witness :
    (toggle_like store0 10 ⟨Kind.post, 1, 2⟩ 0).1 = (true, karmaValueFor Kind.post) ∧
    (toggle_like (toggle_like store0 10 ⟨Kind.post, 1, 2⟩ 0).2 10 ⟨Kind.post, 1, 2⟩ 5).1
      = (false, -karmaValueFor Kind.post) ∧
    ((toggle_like (toggle_like store0 10 ⟨Kind.post, 1, 2⟩ 0).2 10 ⟨Kind.post, 1, 2⟩ 5).2).likeCount
        Kind.post 1
      = store0.likeCount Kind.post 1 := by
  have h := toggle_like_twice store0 10 ⟨Kind.post, 1, 2⟩ 0 5 (by decide)
  exact ⟨h.1, h.2.1, h.2.2⟩

/-- C10: a toggle mutates only the counter of its own target item — toggling
a like on a Comment leaves every Post's `like_count` unchanged, toggling on
a Post leaves every Comment's `like_count` unchanged, and in general every
item other than the target keeps its counter. -/
theorem toggle_like_frame (s : Store) (u : Nat) (now : Int) :
    (∀ c : Target, c.kind = Kind.comment → ∀ i,
      ((toggle_like s u c now).2).likeCount Kind.post i = s.likeCount Kind.post i) ∧
    (∀ p : Target, p.kind = Kind.post → ∀ i,
      ((toggle_like s u p now).2).likeCount Kind.comment i = s.likeCount Kind.comment i) ∧
    (∀ (tgt : Target) (k : Kind) (i : Nat), ¬(k = tgt.kind ∧ i = tgt.id) →
      ((toggle_like s u tgt now).2).likeCount k i = s.likeCount k i) := by
  have key : ∀ (tgt : Target) (k : Kind) (i : Nat), ¬(k = tgt.kind ∧ i = tgt.id) →
      ((toggle_like s u tgt now).2).likeCount k i = s.likeCount k i := by
    intro tgt k i h
    cases hb : hasLike s u tgt.kind tgt.id with
    | false =>
      rw [toggle_like_of_not_liked s u tgt now hb]
      exact setCount_other _ _ _ _ _ _ h
    | true =>
      rw [toggle_like_of_liked s u tgt now hb]
      rw [setCount_other _ _ _ _ _ _ h, deleteLikes_likeCount]
  refine ⟨?_, ?_, key⟩
  · intro c hc i
    exact key c Kind.post i (by simp [hc])
  · intro p hp i
    exact key p Kind.comment i (by simp [hp])

theorem atMostOne_toggle (s : Store) (u : Nat) (tgt : Target) (now : Int)
    (h : AtMostOneLike s) : AtMostOneLike (toggle_like s u tgt now).2 := by
  cases hb : hasLike s u tgt.kind tgt.id with
  | false =>
    rw [toggle_like_of_not_liked s u tgt now hb]
    intro u' k' i'
    rw [setCount_likes]
    by_cases hm : matchesKey u' k' i'
        (⟨u, tgt.kind, tgt.id, tgt.author, karmaValueFor tgt.kind, now⟩ : LikeEvent) = true
    · obtain ⟨h1, h2, h3⟩ := matchesKey_eq_true.mp hm
      have hnil : s.likes.filter (matchesKey u' k' i') = [] := by
        rw [← h1, ← h2, ← h3]
        exact hasLike_false_iff.mp hb
      simp [-List.filter_filter, List.filter_cons, hm, hnil]
    · simp only [Bool.not_eq_true] at hm
      simp only [List.filter_cons, hm, if_false, Bool.false_eq_true]
      exact h u' k' i'
  | true =>
    rw [toggle_like_of_liked s u tgt now hb]
    intro u' k' i'
    rw [setCount_likes, deleteLikes_likes]
    have hsub : List.Sublist
        ((s.likes.filter fun e => !(matchesKey u tgt.kind tgt.id e)).filter
          (matchesKey u' k' i'))
        (s.likes.filter (matchesKey u' k' i')) :=
      List.Sublist.filter _ (List.filter_sublist _)
    exact le_trans hsub.length_le (h u' k' i')

theorem atMostOne_applyToggles (ops : List (Nat × Target × Int)) :
    ∀ s : Store, AtMostOneLike s → AtMostOneLike (applyToggles s ops) := by
  induction ops with
  | nil => exact fun s h => h
  | cons op rest ih =>
    exact fun s h => ih (toggle_like s op.1 op.2.1 op.2.2).2
      (atMostOne_toggle s op.1 op.2.1 op.2.2 h)

theorem liveCount_deleteLikes_same (s : Store) (u : Nat) (k : Kind) (i : Nat) :
    liveCount (deleteLikes s u k i) k i
      = liveCount s k i - (s.likes.filter (matchesKey u k i)).length := by
  show ((s.likes.filter fun e => !(matchesKey u k i e)).filter (matchesItem k i)).length = _
  exact length_filter_filter_not s.likes (fun e => matchesKey_imp_matchesItem e)

theorem liveCount_deleteLikes_other (s : Store) (u : Nat) (k : Kind) (i : Nat)
    (k' : Kind) (i' : Nat) (h : ¬(k' = k ∧ i' = i)) :
    liveCount (deleteLikes s u k i) k' i' = liveCount s k' i' := by
  have hexcl : ∀ e, matchesKey u k i e = true → matchesItem k' i' e = false := by
    intro e he
    rcases matchesKey_eq_true.mp he with ⟨-, h2, h3⟩
    rw [Bool.eq_false_iff]
    intro hit
    rcases matchesItem_eq_true.mp hit with ⟨h2', h3'⟩
    exact h ⟨h2' ▸ h2, h3' ▸ h3⟩
  show ((s.likes.filter fun e => !(matchesKey u k i e)).filter (matchesItem k' i')).length = _
  rw [filter_filter_not_of_excl s.likes hexcl]
  rfl

theorem key_le_liveCount (s : Store) (u : Nat) (k : Kind) (i : Nat) :
    (s.likes.filter (matchesKey u k i)).length ≤ liveCount s k i :=
  length_filter_le_of_imp s.likes (fun e => matchesKey_imp_matchesItem e)

theorem liveCount_setCount (s : Store) (k : Kind) (i : Nat) (v : Int)
    (k' : Kind) (i' : Nat) :
    liveCount (setCount s k i v) k' i' = liveCount s k' i' := rfl

theorem liveCount_insert_same (s : Store) (e : LikeEvent) (k : Kind) (i : Nat)
    (hk : e.kind = k) (hi : e.objectId = i) :
    liveCount { s with likes := e :: s.likes } k i = liveCount s k i + 1 := by
  have hm : matchesItem k i e = true := matchesItem_eq_true.mpr ⟨hk, hi⟩
  simp [-List.filter_filter, liveCount, List.filter_cons, hm]

theorem liveCount_insert_other (s : Store) (e : LikeEvent) (k : Kind) (i : Nat)
    (h : ¬(k = e.kind ∧ i = e.objectId)) :
    liveCount { s with likes := e :: s.likes } k i = liveCount s k i := by
  have hne : matchesItem k i e = false := by
    rw [Bool.eq_false_iff]
    intro hit
    rcases matchesItem_eq_true.mp hit with ⟨h2, h3⟩
    exact h ⟨h2.symm, h3.symm⟩
  simp [-List.filter_filter, liveCount, List.filter_cons, hne]

theorem counts_toggle (s : Store) (u : Nat) (tgt : Target) (now : Int)
    (hc : CountsConsistent s) (ha : AtMostOneLike s) :
    CountsConsistent (toggle_like s u tgt now).2 := by
  cases hb : hasLike s u tgt.kind tgt.id with
  | false =>
    rw [toggle_like_of_not_liked s u tgt now hb]
    intro k i
    by_cases hki : k = tgt.kind ∧ i = tgt.id
    · obtain ⟨hk, hi⟩ := hki
      subst hk; subst hi
      rw [setCount_same, liveCount_setCount,
        liveCount_insert_same s ⟨u, tgt.kind, tgt.id, tgt.author, karmaValueFor tgt.kind, now⟩
          tgt.kind tgt.id rfl rfl,
        hc tgt.kind tgt.id]
      push_cast
      ring
    · rw [setCount_other _ _ _ _ _ _ hki, liveCount_setCount,
        liveCount_insert_other s ⟨u, tgt.kind, tgt.id, tgt.author, karmaValueFor tgt.kind, now⟩
          k i hki,
        hc k i]
  | true =>
    rw [toggle_like_of_liked s u tgt now hb]
    intro k i
    by_cases hki : k = tgt.kind ∧ i = tgt.id
    · obtain ⟨hk, hi⟩ := hki
      subst hk; subst hi
      have hone : (s.likes.filter (matchesKey u tgt.kind tgt.id)).length = 1 :=
        keyCount_eq_one ha hb
      have hle : (s.likes.filter (matchesKey u tgt.kind tgt.id)).length
          ≤ liveCount s tgt.kind tgt.id := key_le_liveCount s u tgt.kind tgt.id
      rw [hone] at hle
      rw [setCount_same, liveCount_setCount, liveCount_deleteLikes_same, hone,
        hc tgt.kind tgt.id]
      omega
    · rw [setCount_other _ _ _ _ _ _ hki, deleteLikes_likeCount, liveCount_setCount,
        liveCount_deleteLikes_other s u tgt.kind tgt.id k i hki, hc k i]

theorem invariants_applyToggles (ops : List (Nat × Target × Int)) :
    ∀ s : Store, CountsConsistent s → AtMostOneLike s →
      CountsConsistent (applyToggles s ops) ∧ AtMostOneLike (applyToggles s ops) := by
  induction ops with
  | nil => exact fun s hc ha => ⟨hc, ha⟩
  | cons op rest ih =>
    exact fun s hc ha => ih (toggle_like s op.1 op.2.1 op.2.2).2
      (counts_toggle s op.1 op.2.1 op.2.2 hc ha)
      (atMostOne_toggle s op.1 op.2.1 op.2.2 ha)

/-- C2: in every store reachable by toggles from a store satisfying the
storage-layer uniqueness invariant, at most one live like event exists per
`(user, content_type, object_id)` key; moreover the enforcement is in the
storage layer itself — the insert primitive rejects any row whose key is
already live, independently of the application logic. -/
theorem unique_like_per_user_per_content (s : Store) (ops : List (Nat × Target × Int))
    (h : AtMostOneLike s) :
    AtMostOneLike (applyToggles s ops) ∧
    (∀ (s' : Store) (e : LikeEvent),
      hasLike s' e.user e.kind e.objectId = true → insertLike s' e = Except.error ()) := by
  refine ⟨atMostOne_applyToggles ops s h, fun s' e he => ?_⟩
  simp [insertLike, he]

/-- Witness for C2: two toggles applied to the empty store. -/
theorem unique_like_per_user_per_content_witness :
    AtMostOneLike (applyToggles store0 [(10, ⟨Kind.post, 1, 2⟩, 0), (11, ⟨Kind.post, 1, 2⟩, 1)]) ∧
    (∀ (s' : Store) (e : LikeEvent),
      hasLike s' e.user e.kind e.objectId = true → insertLike s' e = Except.error ()) := by
  have h := unique_like_per_user_per_content store0
    [(10, ⟨Kind.post, 1, 2⟩, 0), (11, ⟨Kind.post, 1, 2⟩, 1)]
    (fun u k i => by simp [store0, AtMostOneLike])
  exact h

/-- C3: in every store reachable by toggles from a database state whose
counters are consistent (and which satisfies the storage uniqueness
constraint, as every database state does), each item's `like_count` equals
the number of live like events referencing it; in particular no `like_count`
is ever negative. -/
theorem like_count_matches_live_events (s : Store) (ops : List (Nat × Target × Int))
    (hc : CountsConsistent s) (ha : AtMostOneLike s) :
    CountsConsistent (applyToggles s ops) ∧
    (∀ k i, 0 ≤ (applyToggles s ops).likeCount k i) := by
  have h := invariants_applyToggles ops s hc ha
  refine ⟨h.1, fun k i => ?_⟩
  rw [h.1 k i]
  exact Int.natCast_nonneg _

/-- Witness for C3: three toggles (like, like by another user, unlike)
applied to the empty store. -/
theorem like_count_matches_live_events_witness :
    CountsConsistent (applyToggles store0
      [(10, ⟨Kind.post, 1, 2⟩, 0), (11, ⟨Kind.comment, 3, 2⟩, 1), (10, ⟨Kind.post, 1, 2⟩, 2)]) ∧
    (∀ k i, 0 ≤ (applyToggles store0
      [(10, ⟨Kind.post, 1, 2⟩, 0), (11, ⟨Kind.comment, 3, 2⟩, 1), (10, ⟨Kind.post, 1, 2⟩, 2)]).likeCount k i) := by
  exact like_count_matches_live_events store0 _
    (fun k i => by simp [store0, CountsConsistent, liveCount, zeroCounts])
    (fun u k i => by simp [store0, AtMostOneLike])

/-- Witness for C10 on a store with one live like. -/
theorem toggle_like_frame_witness :
    ((toggle_like store1 10 ⟨Kind.comment, 1, 2⟩ 0).2).likeCount Kind.post 1
      = store1.likeCount Kind.post 1 ∧
    ((toggle_like store1 10 ⟨Kind.post, 5, 2⟩ 0).2).likeCount Kind.comment 1
      = store1.likeCount Kind.comment 1 ∧
    ((toggle_like store1 10 ⟨Kind.post, 1, 2⟩ 0).2).likeCount Kind.post 2
      = store1.likeCount Kind.post 2 := by
  have h := toggle_like_frame store1 10 0
  exact ⟨h.1 ⟨Kind.comment, 1, 2⟩ rfl 1, h.2.1 ⟨Kind.post, 5, 2⟩ rfl 1,
    h.2.2 ⟨Kind.post, 1, 2⟩ Kind.post 2 (by decide)⟩

theorem karmaSortedDesc_iff (l : List (Nat × Int)) :
    KarmaSortedDesc l ↔ List.Pairwise (fun a b : Nat × Int => b.2 ≤ a.2) l := Iff.rfl

theorem decide_and_eq (p q : Prop) [Decidable p] [Decidable q] :
    decide (p ∧ q) = (decide p && decide q) := by
  by_cases hp : p <;> by_cases hq : q <;> simp [hp, hq]

theorem sum_map_filter_eq_foldr (f : LikeEvent → Int) (p : LikeEvent → Prop)
    [DecidablePred p] (l : List LikeEvent) :
    ((l.filter fun e => decide (p e)).map f).sum
      = l.foldr (fun e acc => if p e then f e + acc else acc) 0 := by
  induction l with
  | nil => rfl
  | cons a l ih =>
    by_cases hp : p a
    · simp [-List.filter_filter, List.filter_cons, hp, ih]
    · simp [-List.filter_filter, List.filter_cons, hp, ih]

theorem total_karma_foldr (s : Store) (u : Nat) :
    total_karma s u
      = s.likes.foldr (fun e acc =>
          if e.contentAuthor = u then e.karmaValue + acc else acc) 0 :=
  sum_map_filter_eq_foldr (fun e => e.karmaValue) (fun e => e.contentAuthor = u) s.likes

theorem karma_last_24h_foldr (s : Store) (now : Int) (u : Nat) :
    karma_last_24h s now u
      = s.likes.foldr (fun e acc =>
          if e.contentAuthor = u ∧ windowStart now ≤ e.createdAt then
            e.karmaValue + acc
          else acc) 0 := by
  have h := sum_map_filter_eq_foldr (fun e => e.karmaValue)
    (fun e => e.contentAuthor = u ∧ windowStart now ≤ e.createdAt) s.likes
  rw [← h, karma_last_24h]
  have hfun : (fun e : LikeEvent =>
        decide (e.contentAuthor = u) && decide (windowStart now ≤ e.createdAt))
      = fun e : LikeEvent => decide (e.contentAuthor = u ∧ windowStart now ≤ e.createdAt) := by
    funext e
    rw [decide_and_eq]
  rw [hfun]

/-- C6: `total_karma` sums `karma_value` over exactly the live like events
whose `content_author` is the user; `karma_last_24h` restricts that sum to
events with `created_at >= now - 24h`, the boundary instant exactly 24 hours
ago included; both return 0 (and are total, hence never fail) when no event
matches. -/
theorem karma_aggregation (s : Store) (now : Int) (u : Nat) :
    total_karma s u
      = s.likes.foldr (fun e acc =>
          if e.contentAuthor = u then e.karmaValue + acc else acc) 0 ∧
    karma_last_24h s now u
      = s.likes.foldr (fun e acc =>
          if e.contentAuthor = u ∧ now - 24 * 60 * 60 ≤ e.createdAt then
            e.karmaValue + acc
          else acc) 0 ∧
    ((∀ e ∈ s.likes, ¬(e.contentAuthor = u)) → total_karma s u = 0) ∧
    ((∀ e ∈ s.likes, ¬(e.contentAuthor = u ∧ now - 24 * 60 * 60 ≤ e.createdAt)) →
      karma_last_24h s now u = 0) ∧
    (∀ (e : LikeEvent) (c : Kind → Nat → Int) (us : List Nat),
      e.contentAuthor = u → e.createdAt = now - 24 * 60 * 60 →
      karma_last_24h ⟨[e], c, us⟩ now u = e.karmaValue) := by
  refine ⟨total_karma_foldr s u, karma_last_24h_foldr s now u, ?_, ?_, ?_⟩
  · intro h
    have hnil : s.likes.filter (fun e => decide (e.contentAuthor = u)) = [] :=
      List.filter_eq_nil_iff.mpr (by simpa using h)
    simp [total_karma, hnil]
  · intro h
    have hnil : s.likes.filter (fun e =>
        decide (e.contentAuthor = u) && decide (windowStart now ≤ e.createdAt)) = [] := by
      refine List.filter_eq_nil_iff.mpr ?_
      intro e he
      have := h e he
      simp only [windowStart]
      simp only [Bool.and_eq_true, decide_eq_true_eq, not_and] at this ⊢
      exact fun h1 h2 => this h1 h2
    simp [karma_last_24h, hnil]
  · intro e c us he hb
    simp [karma_last_24h, he, windowStart, hb]

/-- Witness for C6: zero-result cases and the inclusive 24h boundary,
evaluated concretely. -/
theorem karma_aggregation_witness :
    total_karma store1 7 = 0 ∧
    karma_last_24h store1 0 7 = 0 ∧
    karma_last_24h ⟨[⟨10, Kind.post, 1, 7, 5, -86400⟩], zeroCounts, []⟩ 0 7 = 5 := by
  have h := karma_aggregation store1 0 7
  refine ⟨h.2.2.1 (by decide), h.2.2.2.1 (by decide), ?_⟩
  exact h.2.2.2.2 ⟨10, Kind.post, 1, 7, 5, -86400⟩ zeroCounts [] rfl (by decide)

/-- C7: every possible result of `get_top_users_24h(limit)` has length at
most `limit`, is ordered descending by 24h karma, and lists only users of
the `User` table having at least one like event in the last 24 hours, each
annotated with exactly their `karma_last_24h` at the same instant. -/
theorem get_top_users_24h_correct (s : Store) (now : Int) (lim : Nat)
    (res : List (Nat × Int)) (h : IsTopUsersResult s now lim res) :
    res.length ≤ lim ∧ KarmaSortedDesc res ∧
    (∀ p ∈ res, p.1 ∈ s.users ∧ hasRecentLike s now p.1 = true ∧
      p.2 = karma_last_24h s now p.1) := by
  obtain ⟨full, hperm, hsort, hres⟩ := h
  subst hres
  refine ⟨List.length_take_le lim full, List.Pairwise.sublist (List.take_sublist lim full) hsort, ?_⟩
  intro p hp
  have hmem : p ∈ full := List.mem_of_mem_take hp
  have hg : p ∈ groupedRows s now := hperm.mem_iff.mp hmem
  rcases List.mem_map.mp hg with ⟨u0, hu0, hpe⟩
  have hu0f := List.mem_filter.mp hu0
  refine ⟨?_, ?_, ?_⟩
  · rw [← hpe]
    exact hu0f.1
  · rw [← hpe]
    exact hu0f.2
  · rw [← hpe]

/-- Witness for C7 on a concrete store and result. -/
theorem get_top_users_24h_correct_witness :
    ([(2, 5)] : List (Nat × Int)).length ≤ 1 ∧ KarmaSortedDesc [(2, 5)] ∧
    (∀ p ∈ ([(2, 5)] : List (Nat × Int)), p.1 ∈ store1.users ∧
      hasRecentLike store1 0 p.1 = true ∧ p.2 = karma_last_24h store1 0 p.1) := by
  apply get_top_users_24h_correct store1 0 1 [(2, 5)]
  exact ⟨[(2, 5)], by decide, (karmaSortedDesc_iff _).mpr (by decide), rfl⟩

/-- C9 counterexample: `get_top_users_24h` orders by `-karma_24h` alone, so
on a store where users 1 and 2 are tied both orderings are possible results
of the same query over the same store at the same instant — the result is
not pinned down by any deterministic secondary key. -/
theorem get_top_users_24h_tie_two_results :
    IsTopUsersResult tieStore 0 2 [(1, 5), (2, 5)] ∧
    IsTopUsersResult tieStore 0 2 [(2, 5), (1, 5)] ∧
    ([(1, 5), (2, 5)] : List (Nat × Int)) ≠ [(2, 5), (1, 5)] := by
  refine ⟨⟨[(1, 5), (2, 5)], by decide, (karmaSortedDesc_iff _).mpr (by decide), rfl⟩,
    ⟨[(2, 5), (1, 5)], by decide, (karmaSortedDesc_iff _).mpr (by decide), rfl⟩, by decide⟩

/-- C9 (amended): the query fixes no tie-break — any ordering of tied users
may be returned — but any two valid results of the same query over the same
store at the same instant agree on their length and on the descending
sequence of karma values. -/
theorem get_top_users_24h_tie_agreement (s : Store) (now : Int) (lim : Nat)
    (res1 res2 : List (Nat × Int))
    (h1 : IsTopUsersResult s now lim res1) (h2 : IsTopUsersResult s now lim res2) :
    res1.length = res2.length ∧ res1.map Prod.snd = res2.map Prod.snd := by
  obtain ⟨f1, hp1, hs1, hr1⟩ := h1
  obtain ⟨f2, hp2, hs2, hr2⟩ := h2
  subst hr1
  subst hr2
  have hperm : (f1.map Prod.snd).Perm (f2.map Prod.snd) :=
    (hp1.trans hp2.symm).map Prod.snd
  have hs1' : List.Sorted (fun a b : Int => b ≤ a) (f1.map Prod.snd) :=
    List.Pairwise.map Prod.snd (fun a b hab => hab) hs1
  have hs2' : List.Sorted (fun a b : Int => b ≤ a) (f2.map Prod.snd) :=
    List.Pairwise.map Prod.snd (fun a b hab => hab) hs2
  haveI : IsAntisymm Int (fun a b : Int => b ≤ a) :=
    ⟨fun a b hab hba => le_antisymm hba hab⟩
  have heq : f1.map Prod.snd = f2.map Prod.snd :=
    List.eq_of_perm_of_sorted hperm hs1' hs2'
  have hlen : f1.length = f2.length := by
    have := congrArg List.length heq
    simpa using this
  constructor
  · rw [List.length_take, List.length_take, hlen]
  · rw [List.map_take, List.map_take, heq]

/-- Witness for C9 (amended) at the tied store. -/
theorem get_top_users_24h_tie_agreement_witness :
    ([(1, 5), (2, 5)] : List (Nat × Int)).length
      = ([(2, 5), (1, 5)] : List (Nat × Int)).length ∧
    ([(1, 5), (2, 5)] : List (Nat × Int)).map Prod.snd
      = ([(2, 5), (1, 5)] : List (Nat × Int)).map Prod.snd := by
  apply get_top_users_24h_tie_agreement tieStore 0 2
  · exact ⟨[(1, 5), (2, 5)], by decide, (karmaSortedDesc_iff _).mpr (by decide), rfl⟩
  · exact ⟨[(2, 5), (1, 5)], by decide, (karmaSortedDesc_iff _).mpr (by decide), rfl⟩

end Playto
